import Mathlib

/-!
Shallow embedding of the gameweek lifecycle and points-settlement core of the
fantasy-sports repository.  The four PL/pgSQL stored procedures
(`calculate_fantasy_team_points`, `finalize_gameweek`, `update_gameweek_status`,
`transfers_allowed`) are translated into pure Lean functions over explicit
relational state.  SQL `INTEGER` columns become `Int`, nullable `TIMESTAMPTZ`
columns become `Option Int` (an instant on an abstract integer time line),
`TEXT` status columns become `String`, and a PL/pgSQL `RAISE EXCEPTION`
(which aborts the whole transaction, leaving every table untouched) becomes an
`Except.error` result carrying the message and no successor state.
-/

/-- A row of the `gameweeks` table. -/
structure Gameweek where
  gameweek_number : Int
  deadline_time : Option Int
  start_time : Option Int
  end_time : Option Int
  status : String
  is_current : Bool
  is_next : Bool
  is_finished : Bool
deriving DecidableEq

/-- A row of the `rosters` table (binding a fantasy team to a player). -/
structure RosterEntry where
  fantasy_team_id : Int
  player_id : Int
  is_starter : Bool
  is_captain : Bool
  is_vice_captain : Bool
deriving DecidableEq

/-- A row of the `players` table (only the column the core reads). -/
structure Player where
  player_id : Int
  position : String
deriving DecidableEq

/-- A row of the `gameweek_scores` table: one player's raw score for one gameweek. -/
structure GameweekScore where
  player_id : Int
  gameweek : Int
  total_points : Int
  minutes_played : Int
deriving DecidableEq

/-- A row of the `real_matches` table (only the columns the finalizer reads). -/
structure RealMatch where
  gameweek : Int
  status : String
deriving DecidableEq

/-- A row of the `fantasy_teams` table. -/
structure FantasyTeam where
  fantasy_team_id : Int
  league_id : Option Int
  total_points : Int
  gameweek_points : Int
  current_gameweek : Int
  transfers_made_this_gw : Int
  transfers_banked : Int
  rank : Int
deriving DecidableEq

/-- A row of the `fantasy_team_gameweek_points` ledger. -/
structure LedgerEntry where
  fantasy_team_id : Int
  gameweek : Int
  points : Int
  rank_in_league : Option Int
deriving DecidableEq

/-- The relational store the four procedures operate on. -/
structure DB where
  gameweeks : List Gameweek
  real_matches : List RealMatch
  fantasy_teams : List FantasyTeam
  rosters : List RosterEntry
  players : List Player
  gameweek_scores : List GameweekScore
  points_ledger : List LedgerEntry
deriving DecidableEq

/-! ## Points calculator (`calculate_fantasy_team_points`) -/

/-- `LEFT JOIN gameweek_scores` with `COALESCE(...,0)`: a player's
`(total_points, minutes_played)` for a gameweek, both `0` when no row exists. -/
def scoreFor (scores : List GameweekScore) (gw pid : Int) : Int × Int :=
  match scores.find? (fun s => s.player_id == pid && s.gameweek == gw) with
  | some s => (s.total_points, s.minutes_played)
  | none => (0, 0)

/-- `COALESCE(gs.total_points, 0)` for one player and gameweek. -/
def scorePoints (scores : List GameweekScore) (gw pid : Int) : Int :=
  (scoreFor scores gw pid).1

/-- `COALESCE(gs.minutes_played, 0)` for one player and gameweek. -/
def scoreMinutes (scores : List GameweekScore) (gw pid : Int) : Int :=
  (scoreFor scores gw pid).2

/-- The roster rows of one fantasy team
(`WHERE fantasy_team_id = p_fantasy_team_id`). -/
def teamRoster (rosters : List RosterEntry) (teamId : Int) : List RosterEntry :=
  rosters.filter (fun r => r.fantasy_team_id == teamId)

/-- `rosters r JOIN players p ON r.player_id = p.player_id` for one team,
with SQL bag semantics (one pair per matching player row). -/
def rosterJoin (rosters : List RosterEntry) (players : List Player) (teamId : Int) :
    List (RosterEntry × Player) :=
  (teamRoster rosters teamId).flatMap
    (fun r => (players.filter (fun p => p.player_id == r.player_id)).map (fun p => (r, p)))

/-- Minimum of a list of integers (`ORDER BY x LIMIT 1`), `none` on the empty list. -/
def listMin? : List Int → Option Int
  | [] => none
  | x :: xs =>
    match listMin? xs with
    | none => some x
    | some m => some (min x m)

/-- Maximum of a list of integers (`ORDER BY x DESC LIMIT 1`), `none` on the empty list. -/
def listMax? : List Int → Option Int
  | [] => none
  | x :: xs =>
    match listMax? xs with
    | none => some x
    | some m => some (max x m)

/-- The candidate substitute scores for an absent starter: points of every
bench player of the same team and position with nonzero minutes
(the `r2`/`p2`/`gs2` subquery of `calculate_fantasy_team_points`). -/
def benchCandidates (rosters : List RosterEntry) (players : List Player)
    (scores : List GameweekScore) (teamId gw : Int) (pos : String) : List Int :=
  ((rosterJoin rosters players teamId).filter
      (fun rp => !rp.1.is_starter && rp.2.position == pos &&
        decide (0 < scoreMinutes scores gw rp.1.player_id))).map
    (fun rp => scorePoints scores gw rp.1.player_id)

/-- `ORDER BY gs2.total_points DESC ... LIMIT 1` over the bench candidates:
the best substitute's points, `none` when no eligible substitute exists. -/
def bestSubPoints (rosters : List RosterEntry) (players : List Player)
    (scores : List GameweekScore) (teamId gw : Int) (pos : String) : Option Int :=
  listMax? (benchCandidates rosters players scores teamId gw pos)

/-- One iteration of the main `FOR player_record IN ... LOOP` of
`calculate_fantasy_team_points`.  The accumulator is
`(total_points, captain_points)`. -/
def loopStep (rosters : List RosterEntry) (players : List Player)
    (scores : List GameweekScore) (teamId gw : Int)
    (acc : Int × Int) (rp : RosterEntry × Player) : Int × Int :=
  if rp.1.is_starter then
    if scoreMinutes scores gw rp.1.player_id = 0 then
      match bestSubPoints rosters players scores teamId gw rp.2.position with
      | some sp => (acc.1 + sp, if rp.1.is_captain then sp else acc.2)
      | none => acc
    else
      (acc.1 + scorePoints scores gw rp.1.player_id,
       if rp.1.is_captain then scorePoints scores gw rp.1.player_id else acc.2)
  else acc

/-- The loop of `calculate_fantasy_team_points`: the accumulated
`(total_points, captain_points)` after scanning the whole joined roster. -/
def calcAccum (rosters : List RosterEntry) (players : List Player)
    (scores : List GameweekScore) (teamId gw : Int) : Int × Int :=
  (rosterJoin rosters players teamId).foldl (loopStep rosters players scores teamId gw) (0, 0)

/-- `SELECT player_id INTO vice_captain_id FROM rosters WHERE ... is_vice_captain`. -/
def viceCaptainId (rosters : List RosterEntry) (teamId : Int) : Option Int :=
  ((teamRoster rosters teamId).find? (fun r => r.is_vice_captain)).map
    (fun r => r.player_id)

/-- The stored procedure `calculate_fantasy_team_points(p_fantasy_team_id, p_gameweek)`:
base total from starters (with automatic substitution), then the captain
doubling, then the vice-captain fallback.  In the fallback the procedure does
`SELECT ... INTO captain_points` straight from `gameweek_scores`; when no row
exists the variable becomes `NULL` and `NULL > 0` is not taken, which the
`none` branch mirrors. -/
def calculate_fantasy_team_points (rosters : List RosterEntry) (players : List Player)
    (scores : List GameweekScore) (teamId gw : Int) : Int :=
  let acc := calcAccum rosters players scores teamId gw
  if 0 < acc.2 then
    acc.1 + acc.2
  else
    match viceCaptainId rosters teamId with
    | some vc =>
      match scores.find? (fun s => s.player_id == vc && s.gameweek == gw) with
      | some srow => if 0 < srow.total_points then acc.1 + srow.total_points else acc.1
      | none => acc.1
    | none => acc.1

/-! ## Transfer gate (`transfers_allowed`) -/

/-- `deadline_time IS NOT NULL AND current_time >= deadline_time`. -/
def deadlinePassedB (now : Int) (g : Gameweek) : Bool :=
  match g.deadline_time with
  | some d => decide (d ≤ now)
  | none => false

/-- The stored procedure `transfers_allowed()`, with the wall-clock instant made
an explicit argument.  Mirrors the control flow of the source: return `false`
when an `active` gameweek exists; otherwise test for an upcoming/locked
gameweek past its deadline, and in the remaining branch run the procedure's
second (negated) existence test before returning `NOT deadline_passed`. -/
def transfers_allowed (now : Int) (gws : List Gameweek) : Bool :=
  let has_active_gw := gws.any (fun g => g.status == "active")
  if has_active_gw then
    false
  else
    let deadline_passed := gws.any (fun g =>
      (g.status == "upcoming" || g.status == "locked") && deadlinePassedB now g)
    if deadline_passed then
      !deadline_passed
    else
      let deadline_passed2 := !(gws.any (fun g =>
        g.status == "upcoming" && deadlinePassedB now g))
      !deadline_passed2

/-- C1: `transfers_allowed` returns `false` on every database state, at every
instant: when an active gameweek exists it returns `false` directly; otherwise,
if some upcoming/locked gameweek's deadline has passed it falls through to
`RETURN NOT deadline_passed` with `deadline_passed = true`; and in the
remaining branch the procedure's second existence test is over a subset of the
first one's rows, so it is empty, the double negation makes
`deadline_passed = true` again, and `false` is returned.  In particular the
function returns `false` when no gameweeks exist at all, contradicting the
claim (and the procedure's own comment `If no upcoming gameweek with
deadline, allow transfers`). -/
theorem transfers_allowed_always_false (now : Int) (gws : List Gameweek) :
    transfers_allowed now gws = false := by
  by_cases hA : gws.any (fun g => g.status == "active") = true
  · simp [transfers_allowed, hA]
  · rw [Bool.not_eq_true] at hA
    by_cases hD : gws.any (fun g =>
      (g.status == "upcoming" || g.status == "locked") && deadlinePassedB now g) = true
    · simp [transfers_allowed, hA, hD]
    · rw [Bool.not_eq_true] at hD
      have hU : gws.any (fun g => g.status == "upcoming" && deadlinePassedB now g) = false := by
        rw [List.any_eq_false] at hD ⊢
        intro g hg
        have h1 := hD g hg
        simp only [Bool.and_eq_true, Bool.or_eq_true, not_and, not_or] at h1 ⊢
        intro hu hdp
        exact h1 (Or.inl hu) hdp
      simp [transfers_allowed, hA, hD, hU]

/-! ## Gameweek status resolver (`update_gameweek_status`) -/

/-- `UPDATE gameweeks SET is_current = false, is_next = false` on one row. -/
def resetFlags (g : Gameweek) : Gameweek :=
  { g with is_current := false, is_next := false }

/-- The flag-reset pass over the whole `gameweeks` table. -/
def gwsReset (l : List Gameweek) : List Gameweek :=
  l.map resetFlags

/-- `current_time >= start_time AND current_time <= end_time`
(false when either time is `NULL`). -/
def inWindow (now : Int) (g : Gameweek) : Bool :=
  match g.start_time, g.end_time with
  | some s, some e => decide (s ≤ now) && decide (now ≤ e)
  | _, _ => false

/-- `current_time < start_time` (false when the start time is `NULL`). -/
def beforeStart (now : Int) (g : Gameweek) : Bool :=
  match g.start_time with
  | some s => decide (now < s)
  | none => false

/-- `SELECT gameweek_number ... WHERE p ORDER BY gameweek_number LIMIT 1`. -/
def minNumber (p : Gameweek → Bool) (l : List Gameweek) : Option Int :=
  listMin? ((l.filter p).map (fun g => g.gameweek_number))

/-- The two-stage selection of the current gameweek: first a gameweek in its
time window or already `active`; failing that, the earliest `upcoming`/`locked`
gameweek or one whose start time is still in the future. -/
def pickCurrent (now : Int) (l : List Gameweek) : Option Int :=
  match minNumber (fun g => inWindow now g || g.status == "active") l with
  | some c => some c
  | none =>
    minNumber (fun g =>
      g.status == "upcoming" || g.status == "locked" || beforeStart now g) l

/-- `UPDATE gameweeks SET is_current = true WHERE gameweek_number = c` on one row. -/
def setCurrentFun (c : Int) (g : Gameweek) : Gameweek :=
  if g.gameweek_number = c then { g with is_current := true } else g

/-- The current-flag update pass. -/
def setCurrent (c : Int) (l : List Gameweek) : List Gameweek :=
  l.map (setCurrentFun c)

/-- `SELECT gameweek_number ... WHERE gameweek_number > c ORDER BY gameweek_number LIMIT 1`. -/
def pickNext (c : Int) (l : List Gameweek) : Option Int :=
  minNumber (fun g => decide (c < g.gameweek_number)) l

/-- `UPDATE gameweeks SET is_next = true WHERE gameweek_number = n` on one row. -/
def setNextFun (n : Int) (g : Gameweek) : Gameweek :=
  if g.gameweek_number = n then { g with is_next := true } else g

/-- The next-flag update pass. -/
def setNext (n : Int) (l : List Gameweek) : List Gameweek :=
  l.map (setNextFun n)

/-- The `CASE` expression of the final status `UPDATE`: recompute a status from
the clock, keeping `finalized` sticky; rows with a `NULL` deadline, start or
end time are excluded by the statement's `WHERE` clause and keep their status. -/
def newStatus (now : Int) : Option Int → Option Int → Option Int → String → String
  | some dv, some sv, some ev, st =>
    if st = "finalized" then "finalized"
    else if now < dv then "upcoming"
    else if dv ≤ now ∧ now < sv then "locked"
    else if sv ≤ now ∧ now ≤ ev then "active"
    else if ev < now then "finalized"
    else st
  | _, _, _, st => st

/-- The final status `UPDATE` applied to one row. -/
def statusUpdate (now : Int) (g : Gameweek) : Gameweek :=
  { g with status := newStatus now g.deadline_time g.start_time g.end_time g.status }

/-- The body of `update_gameweek_status()` after the initial flag reset:
pick and mark the current gameweek, pick and mark the next one, then
recompute every status from the clock. -/
def updateCore (now : Int) (r : List Gameweek) : List Gameweek :=
  match pickCurrent now r with
  | none => r.map (statusUpdate now)
  | some c =>
    match pickNext c (setCurrent c r) with
    | none => (setCurrent c r).map (statusUpdate now)
    | some n => (setNext n (setCurrent c r)).map (statusUpdate now)

/-- The stored procedure `update_gameweek_status()`, with the wall-clock
instant made an explicit argument. -/
def update_gameweek_status (now : Int) (l : List Gameweek) : List Gameweek :=
  updateCore now (gwsReset l)

theorem setCurrentFun_status (c : Int) (g : Gameweek) :
    (setCurrentFun c g).status = g.status := by
  unfold setCurrentFun; split <;> rfl

theorem setNextFun_status (n : Int) (g : Gameweek) :
    (setNextFun n g).status = g.status := by
  unfold setNextFun; split <;> rfl

/-- Projection of the resolver body onto statuses: the flag passes do not
touch statuses, so each resulting status is the time-recomputed status of the
corresponding input row. -/
theorem updateCore_status_proj (now : Int) (r : List Gameweek) :
    (updateCore now r).map Gameweek.status
      = r.map (fun g => newStatus now g.deadline_time g.start_time g.end_time g.status) := by
  unfold updateCore
  split
  · simp only [List.map_map]
    apply List.map_congr_left
    intro g _
    rfl
  · split
    · unfold setCurrent
      simp only [List.map_map]
      apply List.map_congr_left
      intro g _
      show (statusUpdate now (setCurrentFun _ g)).status = _
      unfold setCurrentFun
      split <;> rfl
    · unfold setNext setCurrent
      simp only [List.map_map]
      apply List.map_congr_left
      intro g _
      show (statusUpdate now (setNextFun _ (setCurrentFun _ g))).status = _
      unfold setNextFun setCurrentFun
      split <;> split <;> rfl

/-- Projection of `update_gameweek_status` onto statuses. -/
theorem update_status_proj (now : Int) (l : List Gameweek) :
    (update_gameweek_status now l).map Gameweek.status
      = l.map (fun g => newStatus now g.deadline_time g.start_time g.end_time g.status) := by
  unfold update_gameweek_status
  rw [updateCore_status_proj]
  unfold gwsReset
  rw [List.map_map]
  apply List.map_congr_left
  intro g _
  rfl

/-- On rows with all three boundary times present, the `CASE` expression is
the four-interval classification with sticky `finalized`. -/
theorem newStatus_some_eq (now d s e : Int) (st : String) :
    newStatus now (some d) (some s) (some e) st
      = (if st = "finalized" then "finalized"
         else if now < d then "upcoming"
         else if now < s then "locked"
         else if now ≤ e then "active"
         else "finalized") := by
  simp only [newStatus]
  split_ifs <;> first | rfl | omega

/-- C5: `update_gameweek_status` recomputes every gameweek's status from the
clock: `finalized` is sticky; otherwise, before `deadline_time` the status
becomes `upcoming`, between `deadline_time` and `start_time` it becomes
`locked`, between `start_time` and `end_time` it becomes `active`, and after
`end_time` it becomes `finalized`.  Stated for any row (position `i`) whose
three boundary times are present, as required by the statement's `WHERE`
clause. -/
theorem update_gameweek_status_time_rule (now : Int) (gws : List Gameweek) (i : Nat)
    (g : Gameweek) (d s e : Int) (hg : gws[i]? = some g)
    (hd : g.deadline_time = some d) (hs : g.start_time = some s)
    (he : g.end_time = some e) :
    ((update_gameweek_status now gws)[i]?).map Gameweek.status
      = some (if g.status = "finalized" then "finalized"
          else if now < d then "upcoming"
          else if now < s then "locked"
          else if now ≤ e then "active"
          else "finalized") := by
  have h1 : ((update_gameweek_status now gws)[i]?).map Gameweek.status
      = some (newStatus now g.deadline_time g.start_time g.end_time g.status) := by
    rw [← List.getElem?_map, update_status_proj, List.getElem?_map, hg]
    rfl
  rw [h1, hd, hs, he, newStatus_some_eq]

/-- A sample gameweek used to instantiate the C5 rule. -/
def exGw5 : Gameweek :=
  { gameweek_number := 1, deadline_time := some 10, start_time := some 20,
    end_time := some 30, status := "upcoming", is_current := false,
    is_next := false, is_finished := false }

/-- Witness for C5: at an instant between the deadline and the start, the
status of the sample gameweek becomes `locked`. -/
theorem update_gameweek_status_time_rule_witness :
    ((update_gameweek_status 15 [exGw5])[0]?).map Gameweek.status = some "locked" := by
  exact update_gameweek_status_time_rule 15 [exGw5] 0 exGw5 10 20 30 rfl rfl rfl rfl

/-! ### C6: idempotence of the resolver -/

theorem resetFlags_resetFlags (g : Gameweek) : resetFlags (resetFlags g) = resetFlags g := rfl

theorem resetFlags_setCurrentFun (c : Int) (g : Gameweek) :
    resetFlags (setCurrentFun c g) = resetFlags g := by
  unfold setCurrentFun; split <;> rfl

theorem resetFlags_setNextFun (n : Int) (g : Gameweek) :
    resetFlags (setNextFun n g) = resetFlags g := by
  unfold setNextFun; split <;> rfl

theorem resetFlags_statusUpdate (now : Int) (g : Gameweek) :
    resetFlags (statusUpdate now g) = statusUpdate now (resetFlags g) := rfl

/-- The `CASE` recomputation is idempotent on a single status: a status it
produces is reproduced unchanged at the same instant. -/
theorem newStatus_idem (now : Int) (d s e : Option Int) (st : String) :
    newStatus now d s e (newStatus now d s e st) = newStatus now d s e st := by
  rcases d with _ | dv
  · rfl
  rcases s with _ | sv
  · rfl
  rcases e with _ | ev
  · rfl
  simp only [newStatus]
  split_ifs <;> first | rfl | omega | simp_all

theorem statusUpdate_statusUpdate (now : Int) (g : Gameweek) :
    statusUpdate now (statusUpdate now g) = statusUpdate now g := by
  have h := newStatus_idem now g.deadline_time g.start_time g.end_time g.status
  simp [statusUpdate, h]

theorem gwsReset_idem (l : List Gameweek) : gwsReset (gwsReset l) = gwsReset l := by
  unfold gwsReset
  rw [List.map_map]
  apply List.map_congr_left
  intro g _
  exact resetFlags_resetFlags g

/-- Erasing the flags of the resolver body's output leaves exactly the
status-recomputed, flag-erased input: the flag passes only touch flags and
the status pass only touches statuses. -/
theorem gwsReset_updateCore (now : Int) (r : List Gameweek) :
    gwsReset (updateCore now r) = (gwsReset r).map (statusUpdate now) := by
  unfold updateCore
  split
  · unfold gwsReset
    simp only [List.map_map]
    apply List.map_congr_left
    intro g _
    exact resetFlags_statusUpdate now g
  · split
    · unfold gwsReset setCurrent
      simp only [List.map_map]
      apply List.map_congr_left
      intro g _
      show resetFlags (statusUpdate now (setCurrentFun _ g)) = statusUpdate now (resetFlags g)
      rw [resetFlags_statusUpdate, resetFlags_setCurrentFun]
    · unfold gwsReset setNext setCurrent
      simp only [List.map_map]
      apply List.map_congr_left
      intro g _
      show resetFlags (statusUpdate now (setNextFun _ (setCurrentFun _ g)))
          = statusUpdate now (resetFlags g)
      rw [resetFlags_statusUpdate, resetFlags_setNextFun, resetFlags_setCurrentFun]

theorem gwsReset_update (now : Int) (l : List Gameweek) :
    gwsReset (update_gameweek_status now l) = (gwsReset l).map (statusUpdate now) := by
  unfold update_gameweek_status
  rw [gwsReset_updateCore, gwsReset_idem]

theorem map_statusUpdate_idem (now : Int) (x : List Gameweek) :
    (x.map (statusUpdate now)).map (statusUpdate now) = x.map (statusUpdate now) := by
  rw [List.map_map]
  apply List.map_congr_left
  intro g _
  exact statusUpdate_statusUpdate now g

/-- The gameweek used to refute idempotence of the resolver: marked `active`
although its whole window lies in the past. -/
def exGw6 : Gameweek :=
  { gameweek_number := 1, deadline_time := some 0, start_time := some 10,
    end_time := some 20, status := "active", is_current := false,
    is_next := false, is_finished := false }

/-- C6 counterexample: at instant 30 the first call selects `exGw6` as
current (its stored status is still `active`) and then finalizes its status;
the second call at the same instant finds no current gameweek and clears the
`is_current` flag, so the state after the second call differs from the state
after the first. -/
theorem update_gameweek_status_not_idempotent :
    update_gameweek_status 30 (update_gameweek_status 30 [exGw6])
      ≠ update_gameweek_status 30 [exGw6] := by decide

/-- C6 (amended): the resolver is idempotent only from the second call on.
A first call can change the stored statuses (which the flag selection of the
next call reads), but after one call the statuses are time-consistent, so a
second and a third call at the same instant produce identical states. -/
theorem update_gameweek_status_settles (now : Int) (gws : List Gameweek) :
    update_gameweek_status now (update_gameweek_status now (update_gameweek_status now gws))
      = update_gameweek_status now (update_gameweek_status now gws) := by
  have h2 : gwsReset (update_gameweek_status now (update_gameweek_status now gws))
      = gwsReset (update_gameweek_status now gws) := by
    rw [gwsReset_update, gwsReset_update]
    exact map_statusUpdate_idem now (gwsReset gws)
  show updateCore now (gwsReset (update_gameweek_status now
      (update_gameweek_status now gws)))
    = updateCore now (gwsReset (update_gameweek_status now gws))
  rw [h2]

/-! ### C7: flag invariants of the resolver -/

theorem statusUpdate_is_current (now : Int) (g : Gameweek) :
    (statusUpdate now g).is_current = g.is_current := rfl

theorem statusUpdate_is_next (now : Int) (g : Gameweek) :
    (statusUpdate now g).is_next = g.is_next := rfl

theorem statusUpdate_number (now : Int) (g : Gameweek) :
    (statusUpdate now g).gameweek_number = g.gameweek_number := rfl

theorem setCurrentFun_is_current (c : Int) (g : Gameweek) :
    (setCurrentFun c g).is_current
      = (if g.gameweek_number = c then true else g.is_current) := by
  unfold setCurrentFun; split <;> rfl

theorem setCurrentFun_is_next (c : Int) (g : Gameweek) :
    (setCurrentFun c g).is_next = g.is_next := by
  unfold setCurrentFun; split <;> rfl

theorem setCurrentFun_number (c : Int) (g : Gameweek) :
    (setCurrentFun c g).gameweek_number = g.gameweek_number := by
  unfold setCurrentFun; split <;> rfl

theorem setNextFun_is_next (n : Int) (g : Gameweek) :
    (setNextFun n g).is_next
      = (if g.gameweek_number = n then true else g.is_next) := by
  unfold setNextFun; split <;> rfl

theorem setNextFun_is_current (n : Int) (g : Gameweek) :
    (setNextFun n g).is_current = g.is_current := by
  unfold setNextFun; split <;> rfl

theorem setNextFun_number (n : Int) (g : Gameweek) :
    (setNextFun n g).gameweek_number = g.gameweek_number := by
  unfold setNextFun; split <;> rfl

theorem listMin?_eq_none {xs : List Int} : listMin? xs = none ↔ xs = [] := by
  cases xs with
  | nil => simp [listMin?]
  | cons x xs => cases h : listMin? xs <;> simp [listMin?, h]

theorem listMin?_mem : ∀ {xs : List Int} {m : Int}, listMin? xs = some m → m ∈ xs := by
  intro xs
  induction xs with
  | nil => intro m h; simp [listMin?] at h
  | cons x xs ih =>
    intro m h
    simp only [listMin?] at h
    cases h2 : listMin? xs with
    | none =>
      rw [h2] at h
      simp only [Option.some.injEq] at h
      subst h
      exact List.mem_cons_self x xs
    | some k =>
      rw [h2] at h
      simp only [Option.some.injEq] at h
      subst h
      rcases min_choice x k with h3 | h3 <;> rw [h3]
      · exact List.mem_cons_self x xs
      · exact List.mem_cons_of_mem x (ih h2)

theorem listMin?_le : ∀ {xs : List Int} {m : Int}, listMin? xs = some m →
    ∀ x ∈ xs, m ≤ x := by
  intro xs
  induction xs with
  | nil => intro m h; simp [listMin?] at h
  | cons x xs ih =>
    intro m h y hy
    simp only [listMin?] at h
    cases h2 : listMin? xs with
    | none =>
      rw [h2] at h
      simp only [Option.some.injEq] at h
      subst h
      rw [listMin?_eq_none] at h2
      subst h2
      rcases List.mem_singleton.mp hy with rfl
      exact le_refl _
    | some k =>
      rw [h2] at h
      simp only [Option.some.injEq] at h
      subst h
      rcases List.mem_cons.mp hy with rfl | hy2
      · exact min_le_left _ _
      · exact le_trans (min_le_right x k) (ih h2 y hy2)

theorem minNumber_some_mem {p : Gameweek → Bool} {l : List Gameweek} {c : Int}
    (h : minNumber p l = some c) :
    ∃ g ∈ l, p g = true ∧ g.gameweek_number = c := by
  unfold minNumber at h
  have h1 := listMin?_mem h
  rw [List.mem_map] at h1
  obtain ⟨g, hg, hnum⟩ := h1
  rw [List.mem_filter] at hg
  exact ⟨g, hg.1, hg.2, hnum⟩

theorem minNumber_some_min {p : Gameweek → Bool} {l : List Gameweek} {c : Int}
    (h : minNumber p l = some c) :
    ∀ g ∈ l, p g = true → c ≤ g.gameweek_number := by
  intro g hg hp
  exact listMin?_le h _ (List.mem_map_of_mem _ (List.mem_filter.mpr ⟨hg, hp⟩))

theorem minNumber_none {p : Gameweek → Bool} {l : List Gameweek}
    (h : minNumber p l = none) : ∀ g ∈ l, p g = false := by
  unfold minNumber at h
  rw [listMin?_eq_none, List.map_eq_nil_iff, List.filter_eq_nil_iff] at h
  intro g hg
  exact Bool.not_eq_true _ ▸ (Bool.eq_false_iff.mpr (h g hg))

theorem countP_ext {α : Type} (p q : α → Bool) :
    ∀ l : List α, (∀ a ∈ l, p a = q a) → l.countP p = l.countP q := by
  intro l
  induction l with
  | nil => intro _; rfl
  | cons a l ih =>
    intro h
    rw [List.countP_cons, List.countP_cons, h a (List.mem_cons_self a l),
      ih (fun b hb => h b (List.mem_cons_of_mem a hb))]

/-- A list whose key projection is duplicate-free holds at most one element
with any given key. -/
theorem countP_key_le_one {α : Type} (f : α → Int) (v : Int) :
    ∀ l : List α, (l.map f).Nodup → l.countP (fun a => decide (f a = v)) ≤ 1 := by
  intro l
  induction l with
  | nil => intro _; simp
  | cons a l ih =>
    intro h
    rw [List.map_cons, List.nodup_cons] at h
    rw [List.countP_cons]
    by_cases hv : f a = v
    · have hz : l.countP (fun a => decide (f a = v)) = 0 := by
        rw [List.countP_eq_zero]
        intro b hb
        simp only [decide_eq_true_eq]
        intro hbv
        exact h.1 (by rw [hv, ← hbv]; exact List.mem_map_of_mem f hb)
      rw [hz]
      simp [hv]
    · have h2 := ih h.2
      have hd : ¬(decide (f a = v) = true) := by simpa using hv
      rw [if_neg hd]
      omega

/-- The disjunction of the resolver's two current-gameweek selection
predicates: a gameweek qualifying as current. -/
def qualifiesCurrent (now : Int) (g : Gameweek) : Bool :=
  (inWindow now g || g.status == "active") ||
  (g.status == "upcoming" || g.status == "locked" || beforeStart now g)

theorem qualifiesCurrent_resetFlags (now : Int) (g : Gameweek) :
    qualifiesCurrent now (resetFlags g) = qualifiesCurrent now g := rfl

theorem pickCurrent_some_mem {now : Int} {r : List Gameweek} {c : Int}
    (h : pickCurrent now r = some c) : ∃ g ∈ r, g.gameweek_number = c := by
  unfold pickCurrent at h
  cases h1 : minNumber (fun g => inWindow now g || g.status == "active") r with
  | some c0 =>
    simp only [h1, Option.some.injEq] at h
    obtain ⟨g, hg, _, hnum⟩ := minNumber_some_mem h1
    exact ⟨g, hg, by rw [hnum, h]⟩
  | none =>
    simp only [h1] at h
    obtain ⟨g, hg, _, hnum⟩ := minNumber_some_mem h
    exact ⟨g, hg, hnum⟩

theorem pickCurrent_none {now : Int} {r : List Gameweek}
    (h : pickCurrent now r = none) : ∀ g ∈ r, qualifiesCurrent now g = false := by
  unfold pickCurrent at h
  cases h1 : minNumber (fun g => inWindow now g || g.status == "active") r with
  | some c0 =>
    simp only [h1] at h
    exact Option.noConfusion h
  | none =>
    simp only [h1] at h
    intro g hg
    have ha : (inWindow now g || g.status == "active") = false := minNumber_none h1 g hg
    have hb : (g.status == "upcoming" || g.status == "locked" || beforeStart now g) = false :=
      minNumber_none h g hg
    unfold qualifiesCurrent
    rw [ha, hb]
    rfl

theorem pickNext_some_facts {c : Int} {w : List Gameweek} {n : Int}
    (h : pickNext c w = some n) :
    (∃ g ∈ w, g.gameweek_number = n) ∧ c < n := by
  unfold pickNext at h
  obtain ⟨g, hg, hp, hnum⟩ := minNumber_some_mem h
  refine ⟨⟨g, hg, hnum⟩, ?_⟩
  rw [← hnum]
  exact of_decide_eq_true hp

theorem pickNext_some_min {c : Int} {w : List Gameweek} {n : Int}
    (h : pickNext c w = some n) :
    ∀ g ∈ w, c < g.gameweek_number → n ≤ g.gameweek_number := by
  intro g hg hc
  exact minNumber_some_min h g hg (decide_eq_true hc)

/-- The resolver's output, split by which flag-selection branches fired. -/
theorem update_eq_branches (now : Int) (l : List Gameweek) :
    (pickCurrent now (gwsReset l) = none ∧
      update_gameweek_status now l = (gwsReset l).map (statusUpdate now))
    ∨ (∃ c, pickCurrent now (gwsReset l) = some c ∧
        pickNext c (setCurrent c (gwsReset l)) = none ∧
        update_gameweek_status now l
          = (setCurrent c (gwsReset l)).map (statusUpdate now))
    ∨ (∃ c n, pickCurrent now (gwsReset l) = some c ∧
        pickNext c (setCurrent c (gwsReset l)) = some n ∧
        update_gameweek_status now l
          = (setNext n (setCurrent c (gwsReset l))).map (statusUpdate now)) := by
  rcases h1 : pickCurrent now (gwsReset l) with _ | c
  · exact Or.inl ⟨rfl, by unfold update_gameweek_status updateCore; rw [h1]⟩
  · rcases h2 : pickNext c (setCurrent c (gwsReset l)) with _ | n
    · exact Or.inr (Or.inl ⟨c, rfl, h2, by
        unfold update_gameweek_status updateCore; simp only [h1, h2]⟩)
    · exact Or.inr (Or.inr ⟨c, n, rfl, h2, by
        unfold update_gameweek_status updateCore; simp only [h1, h2]⟩)

theorem resetFlags_number (g : Gameweek) :
    (resetFlags g).gameweek_number = g.gameweek_number := rfl

theorem countP_ic_map_su (now : Int) (x : List Gameweek) :
    (x.map (statusUpdate now)).countP (fun g => g.is_current)
      = x.countP (fun g => g.is_current) := by
  rw [List.countP_map]
  exact countP_ext _ _ x (fun a _ => rfl)

theorem countP_inx_map_su (now : Int) (x : List Gameweek) :
    (x.map (statusUpdate now)).countP (fun g => g.is_next)
      = x.countP (fun g => g.is_next) := by
  rw [List.countP_map]
  exact countP_ext _ _ x (fun a _ => rfl)

theorem countP_ic_reset (l : List Gameweek) :
    (gwsReset l).countP (fun g => g.is_current) = 0 := by
  unfold gwsReset
  rw [List.countP_map, List.countP_eq_zero]
  intro a _
  simp [resetFlags]

theorem countP_inx_reset (l : List Gameweek) :
    (gwsReset l).countP (fun g => g.is_next) = 0 := by
  unfold gwsReset
  rw [List.countP_map, List.countP_eq_zero]
  intro a _
  simp [resetFlags]

theorem countP_ic_setCurrent_reset (c : Int) (l : List Gameweek) :
    (setCurrent c (gwsReset l)).countP (fun g => g.is_current)
      = l.countP (fun g => decide (g.gameweek_number = c)) := by
  unfold setCurrent gwsReset
  rw [List.countP_map, List.countP_map]
  apply countP_ext
  intro a _
  show (setCurrentFun c (resetFlags a)).is_current = decide (a.gameweek_number = c)
  rw [setCurrentFun_is_current]
  by_cases h : a.gameweek_number = c
  · simp [resetFlags, h]
  · simp [resetFlags, h]

theorem countP_inx_setCurrent_reset (c : Int) (l : List Gameweek) :
    (setCurrent c (gwsReset l)).countP (fun g => g.is_next) = 0 := by
  unfold setCurrent gwsReset
  rw [List.countP_map, List.countP_map, List.countP_eq_zero]
  intro a _
  show ¬(setCurrentFun c (resetFlags a)).is_next = true
  rw [setCurrentFun_is_next]
  simp [resetFlags]

theorem countP_ic_setNext (n : Int) (x : List Gameweek) :
    (setNext n x).countP (fun g => g.is_current)
      = x.countP (fun g => g.is_current) := by
  unfold setNext
  rw [List.countP_map]
  exact countP_ext _ _ x (fun a _ => setNextFun_is_current n a)

theorem countP_inx_setNext_chain (n c : Int) (l : List Gameweek) :
    (setNext n (setCurrent c (gwsReset l))).countP (fun g => g.is_next)
      = l.countP (fun g => decide (g.gameweek_number = n)) := by
  unfold setNext setCurrent gwsReset
  rw [List.countP_map, List.countP_map, List.countP_map]
  apply countP_ext
  intro a _
  show (setNextFun n (setCurrentFun c (resetFlags a))).is_next
      = decide (a.gameweek_number = n)
  rw [setNextFun_is_next, setCurrentFun_number, setCurrentFun_is_next]
  by_cases h : a.gameweek_number = n
  · simp [resetFlags, h]
  · simp [resetFlags, h]

/-- C7 (amended): after `update_gameweek_status`, over a table with pairwise
distinct gameweek numbers, at most one gameweek is current (exactly one when
some gameweek qualifies as current), at most one is next, and the gameweek
marked next carries the smallest ordinal strictly greater than the current
gameweek's ordinal — not necessarily the current ordinal plus one. -/
theorem update_gameweek_status_flag_invariants (now : Int) (gws : List Gameweek)
    (hnd : (gws.map Gameweek.gameweek_number).Nodup) :
    ((update_gameweek_status now gws).countP (fun g => g.is_current) ≤ 1)
    ∧ ((∃ g ∈ gws, qualifiesCurrent now g = true) →
        (update_gameweek_status now gws).countP (fun g => g.is_current) = 1)
    ∧ ((update_gameweek_status now gws).countP (fun g => g.is_next) ≤ 1)
    ∧ (∀ gn ∈ update_gameweek_status now gws, gn.is_next = true →
        ∃ gc ∈ update_gameweek_status now gws, gc.is_current = true ∧
          gc.gameweek_number < gn.gameweek_number ∧
          ∀ gh ∈ update_gameweek_status now gws,
            gc.gameweek_number < gh.gameweek_number →
              gn.gameweek_number ≤ gh.gameweek_number) := by
  rcases update_eq_branches now gws with ⟨hc, hb⟩ | ⟨c, hc, hn, hb⟩ | ⟨c, n, hc, hn, hb⟩
  · -- no current gameweek selected: all flags stay cleared
    have hic : (update_gameweek_status now gws).countP (fun g => g.is_current) = 0 := by
      rw [hb, countP_ic_map_su, countP_ic_reset]
    have hinx : (update_gameweek_status now gws).countP (fun g => g.is_next) = 0 := by
      rw [hb, countP_inx_map_su, countP_inx_reset]
    refine ⟨by omega, ?_, by omega, ?_⟩
    · rintro ⟨g0, hg0, hq⟩
      have h2 := pickCurrent_none hc (resetFlags g0) (List.mem_map_of_mem resetFlags hg0)
      rw [qualifiesCurrent_resetFlags, hq] at h2
      exact absurd h2 (by simp)
    · intro gn hgn hnx
      rw [hb] at hgn
      rw [List.mem_map] at hgn
      obtain ⟨b, hb2, rfl⟩ := hgn
      unfold gwsReset at hb2
      rw [List.mem_map] at hb2
      obtain ⟨a, _, rfl⟩ := hb2
      rw [statusUpdate_is_next] at hnx
      simp [resetFlags] at hnx
  · -- a current gameweek but no later one
    obtain ⟨gr, hgr, hgr_num⟩ := pickCurrent_some_mem hc
    have hpos : 0 < gws.countP (fun g => decide (g.gameweek_number = c)) := by
      have hgr2 := hgr
      unfold gwsReset at hgr2
      rw [List.mem_map] at hgr2
      obtain ⟨a0, ha0, rfl⟩ := hgr2
      rw [resetFlags_number] at hgr_num
      exact List.countP_pos_iff.mpr ⟨a0, ha0, decide_eq_true hgr_num⟩
    have hle := countP_key_le_one Gameweek.gameweek_number c gws hnd
    have hic : (update_gameweek_status now gws).countP (fun g => g.is_current)
        = gws.countP (fun g => decide (g.gameweek_number = c)) := by
      rw [hb, countP_ic_map_su, countP_ic_setCurrent_reset]
    have hinx : (update_gameweek_status now gws).countP (fun g => g.is_next) = 0 := by
      rw [hb, countP_inx_map_su, countP_inx_setCurrent_reset]
    refine ⟨by omega, fun _ => by omega, by omega, ?_⟩
    intro gn hgn hnx
    rw [hb] at hgn
    rw [List.mem_map] at hgn
    obtain ⟨w2, hw2, rfl⟩ := hgn
    unfold setCurrent at hw2
    rw [List.mem_map] at hw2
    obtain ⟨w3, hw3, rfl⟩ := hw2
    unfold gwsReset at hw3
    rw [List.mem_map] at hw3
    obtain ⟨a, _, rfl⟩ := hw3
    rw [statusUpdate_is_next, setCurrentFun_is_next] at hnx
    simp [resetFlags] at hnx
  · -- a current gameweek and a later one marked next
    obtain ⟨gr, hgr, hgr_num⟩ := pickCurrent_some_mem hc
    have hpos : 0 < gws.countP (fun g => decide (g.gameweek_number = c)) := by
      have hgr2 := hgr
      unfold gwsReset at hgr2
      rw [List.mem_map] at hgr2
      obtain ⟨a0, ha0, hrfl⟩ := hgr2
      have : a0.gameweek_number = c := by
        rw [← resetFlags_number a0, hrfl]
        exact hgr_num
      exact List.countP_pos_iff.mpr ⟨a0, ha0, decide_eq_true this⟩
    have hle := countP_key_le_one Gameweek.gameweek_number c gws hnd
    have hlen := countP_key_le_one Gameweek.gameweek_number n gws hnd
    have hic : (update_gameweek_status now gws).countP (fun g => g.is_current)
        = gws.countP (fun g => decide (g.gameweek_number = c)) := by
      rw [hb, countP_ic_map_su, countP_ic_setNext, countP_ic_setCurrent_reset]
    have hinx : (update_gameweek_status now gws).countP (fun g => g.is_next)
        = gws.countP (fun g => decide (g.gameweek_number = n)) := by
      rw [hb, countP_inx_map_su, countP_inx_setNext_chain]
    refine ⟨by omega, fun _ => by omega, by omega, ?_⟩
    intro gn hgn hnx
    rw [hb] at hgn
    rw [List.mem_map] at hgn
    obtain ⟨w1, hw1, rfl⟩ := hgn
    unfold setNext at hw1
    rw [List.mem_map] at hw1
    obtain ⟨w2, hw2, rfl⟩ := hw1
    unfold setCurrent at hw2
    rw [List.mem_map] at hw2
    obtain ⟨w3, hw3, rfl⟩ := hw2
    unfold gwsReset at hw3
    rw [List.mem_map] at hw3
    obtain ⟨a, _, rfl⟩ := hw3
    have hnum_a : a.gameweek_number = n := by
      by_contra hne
      rw [statusUpdate_is_next, setNextFun_is_next, setCurrentFun_number,
        resetFlags_number] at hnx
      rw [if_neg hne] at hnx
      rw [setCurrentFun_is_next] at hnx
      simp [resetFlags] at hnx
    have hgn_num : (statusUpdate now (setNextFun n
        (setCurrentFun c (resetFlags a)))).gameweek_number = n := by
      rw [statusUpdate_number, setNextFun_number, setCurrentFun_number,
        resetFlags_number]
      exact hnum_a
    refine ⟨statusUpdate now (setNextFun n (setCurrentFun c gr)), ?_, ?_, ?_, ?_⟩
    · rw [hb]
      unfold setNext setCurrent
      exact List.mem_map_of_mem _ (List.mem_map_of_mem _ (List.mem_map_of_mem _ hgr))
    · rw [statusUpdate_is_current, setNextFun_is_current, setCurrentFun_is_current,
        if_pos hgr_num]
    · rw [statusUpdate_number, setNextFun_number, setCurrentFun_number, hgr_num,
        hgn_num]
      exact (pickNext_some_facts hn).2
    · intro gh hgh hlt
      rw [hb] at hgh
      rw [List.mem_map] at hgh
      obtain ⟨w1h, hw1h, rfl⟩ := hgh
      unfold setNext at hw1h
      rw [List.mem_map] at hw1h
      obtain ⟨w2h, hw2h, rfl⟩ := hw1h
      have hnum_gh : (statusUpdate now (setNextFun n w2h)).gameweek_number
          = w2h.gameweek_number := by
        rw [statusUpdate_number, setNextFun_number]
      have hgc_num : (statusUpdate now (setNextFun n
          (setCurrentFun c gr))).gameweek_number = c := by
        rw [statusUpdate_number, setNextFun_number, setCurrentFun_number, hgr_num]
      rw [hgn_num, hnum_gh]
      apply pickNext_some_min hn w2h hw2h
      rw [hgc_num, hnum_gh] at hlt
      exact hlt

/-- First sample gameweek for the flag invariants: ordinal 1, upcoming. -/
def exGw7a : Gameweek :=
  { gameweek_number := 1, deadline_time := some 100, start_time := some 110,
    end_time := some 120, status := "upcoming", is_current := false,
    is_next := false, is_finished := false }

/-- Second sample gameweek for the flag invariants: ordinal 3 (the ordinal 2
gameweek does not exist), upcoming. -/
def exGw7b : Gameweek :=
  { gameweek_number := 3, deadline_time := some 200, start_time := some 210,
    end_time := some 220, status := "upcoming", is_current := false,
    is_next := false, is_finished := false }

/-- Witness for the amended C7: on a table with gameweeks 1 and 3, exactly one
gameweek ends up current. -/
theorem update_gameweek_status_flag_invariants_witness :
    (update_gameweek_status 5 [exGw7a, exGw7b]).countP (fun g => g.is_current) = 1 :=
  (update_gameweek_status_flag_invariants 5 [exGw7a, exGw7b] (by decide)).2.1
    ⟨exGw7a, by decide, by decide⟩

/-- C7 counterexample to the claim as stated: with gameweeks numbered 1 and 3
(no gameweek numbered 2), the resolver marks gameweek 3 as next although its
ordinal is not the current gameweek's ordinal plus one — the claim would
require no gameweek to be marked next. -/
theorem update_is_next_not_ordinal_succ :
    ¬ (∀ gn ∈ update_gameweek_status 5 [exGw7a, exGw7b], gn.is_next = true →
        ∃ gc ∈ update_gameweek_status 5 [exGw7a, exGw7b], gc.is_current = true ∧
          gn.gameweek_number = gc.gameweek_number + 1) := by decide

/-! ## Finalizer (`finalize_gameweek`) -/

/-- Insertion sort by a boolean order, determinizing SQL `ORDER BY`. -/
def insertSortedBy {α : Type} (le : α → α → Bool) (x : α) : List α → List α
  | [] => [x]
  | y :: ys => if le x y then x :: y :: ys else y :: insertSortedBy le x ys

/-- Sort a list by a boolean order (`ORDER BY ...`). -/
def sortBy {α : Type} (le : α → α → Bool) (l : List α) : List α :=
  l.foldr (insertSortedBy le) []

/-- The message of `RAISE EXCEPTION 'Cannot finalize gameweek %...'`. -/
def finalizeError (gw : Int) : String :=
  "Cannot finalize gameweek " ++ toString gw ++ ". Not all matches are completed."

/-- The per-team `UPDATE fantasy_teams SET ...` of the finalizer loop:
cumulative total adjusted by the fresh points minus the previous snapshot,
snapshot replaced, pointer advanced, per-period transfer counter reset,
banked transfers incremented and capped at one (`LEAST(... + 1, 1)`). -/
def settleTeam (rosters : List RosterEntry) (players : List Player)
    (scores : List GameweekScore) (gw : Int) (t : FantasyTeam) : FantasyTeam :=
  let pts := calculate_fantasy_team_points rosters players scores t.fantasy_team_id gw
  { t with
    total_points := t.total_points + pts - t.gameweek_points,
    gameweek_points := pts,
    current_gameweek := gw + 1,
    transfers_made_this_gw := 0,
    transfers_banked := min (t.transfers_banked + 1) 1 }

/-- `INSERT ... ON CONFLICT (fantasy_team_id, gameweek) DO UPDATE SET points`. -/
def upsertLedger (teamId gw pts : Int) (l : List LedgerEntry) : List LedgerEntry :=
  if l.any (fun e => e.fantasy_team_id == teamId && e.gameweek == gw) then
    l.map (fun e =>
      if e.fantasy_team_id == teamId && e.gameweek == gw then { e with points := pts } else e)
  else
    l ++ [{ fantasy_team_id := teamId, gameweek := gw, points := pts, rank_in_league := none }]

/-- The ledger after the finalizer's team loop: one upsert per fantasy team,
iterating in `ORDER BY fantasy_team_id` order over the pre-update rows. -/
def settleLedger (rosters : List RosterEntry) (players : List Player)
    (scores : List GameweekScore) (gw : Int) (teams : List FantasyTeam)
    (l : List LedgerEntry) : List LedgerEntry :=
  (sortBy (fun a b => decide (a.fantasy_team_id ≤ b.fantasy_team_id)) teams).foldl
    (fun acc t =>
      upsertLedger t.fantasy_team_id gw
        (calculate_fantasy_team_points rosters players scores t.fantasy_team_id gw) acc)
    l

/-- The settled points of one (team, gameweek) ledger row, `0` when absent. -/
def ledgerPoints (l : List LedgerEntry) (teamId gw : Int) : Int :=
  match l.find? (fun e => e.fantasy_team_id == teamId && e.gameweek == gw) with
  | some e => e.points
  | none => 0

/-- `SELECT DISTINCT league_id FROM fantasy_teams WHERE league_id IS NOT NULL`. -/
def leagueIds (teams : List FantasyTeam) : List Int :=
  (teams.filterMap (fun t => t.league_id)).eraseDups

/-- One league's ranking pass: members joined to their ledger rows for the
gameweek, ordered by settled points descending (ties determinized by team
identifier ascending), rank written back into the ledger. -/
def rankLeague (gw : Int) (teams : List FantasyTeam) (lg : Int)
    (l : List LedgerEntry) : List LedgerEntry :=
  let memberIds := (teams.filter (fun t => t.league_id == some lg &&
    l.any (fun e => e.fantasy_team_id == t.fantasy_team_id && e.gameweek == gw))).map
      (fun t => t.fantasy_team_id)
  let sortedIds := sortBy (fun a b =>
    (ledgerPoints l b gw < ledgerPoints l a gw) ||
    (ledgerPoints l a gw == ledgerPoints l b gw && a ≤ b)) memberIds
  l.map (fun e =>
    if e.gameweek == gw && sortedIds.contains e.fantasy_team_id then
      { e with rank_in_league := some (Int.ofNat (sortedIds.indexOf e.fantasy_team_id + 1)) }
    else e)

/-- The finalizer's league-ranking loop over all distinct leagues. -/
def rankLeagues (gw : Int) (teams : List FantasyTeam) (l : List LedgerEntry) :
    List LedgerEntry :=
  (leagueIds teams).foldl (fun acc lg => rankLeague gw teams lg acc) l

/-- Team identifiers in overall-ranking order:
`ORDER BY total_points DESC, fantasy_team_id` (ascending id breaks ties). -/
def overallRankIds (teams : List FantasyTeam) : List Int :=
  (sortBy (fun a b =>
    (b.total_points < a.total_points) ||
    (a.total_points == b.total_points && a.fantasy_team_id ≤ b.fantasy_team_id)) teams).map
    (fun t => t.fantasy_team_id)

/-- The finalizer's overall-ranking loop: each team's `rank` becomes its
position in the overall order. -/
def assignOverallRanks (teams : List FantasyTeam) : List FantasyTeam :=
  teams.map (fun t =>
    { t with rank := Int.ofNat ((overallRankIds teams).indexOf t.fantasy_team_id + 1) })

/-- The finalizer's three gameweek `UPDATE`s collapsed onto one row: the
target is finalized and loses `is_current`; the row numbered target+1 becomes
`active`/`is_current` (unconditionally, whatever its previous status); the
row numbered target+2 becomes `is_next`. -/
def finalizeGwFun (gw : Int) (g : Gameweek) : Gameweek :=
  if g.gameweek_number = gw then
    { g with status := "finalized", is_finished := true, is_current := false }
  else if g.gameweek_number = gw + 1 then
    { g with status := "active", is_current := true, is_next := false }
  else if g.gameweek_number = gw + 2 then
    { g with is_next := true }
  else g

/-- The stored procedure `finalize_gameweek(p_gameweek)`.  The leading
precondition check raises before any write; the raise aborts the enclosing
transaction, which the `Except.error` result (carrying no successor state)
models.  On success the team loop, the two ranking loops and the gameweek
updates run as one atomic unit. -/
def finalize_gameweek (gw : Int) (db : DB) : Except String DB :=
  if db.real_matches.any (fun m => m.gameweek == gw && m.status != "completed") then
    Except.error (finalizeError gw)
  else
    let teams1 := db.fantasy_teams.map (settleTeam db.rosters db.players db.gameweek_scores gw)
    let ledger1 := settleLedger db.rosters db.players db.gameweek_scores gw
      db.fantasy_teams db.points_ledger
    let ledger2 := rankLeagues gw teams1 ledger1
    let teams2 := assignOverallRanks teams1
    let gws2 := db.gameweeks.map (finalizeGwFun gw)
    Except.ok { db with fantasy_teams := teams2, points_ledger := ledger2, gameweeks := gws2 }

/-- C2: if any real match of the target gameweek is not `completed`,
`finalize_gameweek` fails with the named error.  The check runs before any
write and a PL/pgSQL exception rolls the transaction back, so the error
result carries no successor state: the points ledger, the fantasy-team
totals, pointers and counters, and the gameweek statuses and flags all
remain exactly the caller's state. -/
theorem finalize_gameweek_incomplete_error (gw : Int) (db : DB)
    (m : RealMatch) (hm : m ∈ db.real_matches) (hgw : m.gameweek = gw)
    (hst : m.status ≠ "completed") :
    finalize_gameweek gw db = Except.error (finalizeError gw) := by
  unfold finalize_gameweek
  rw [if_pos]
  exact List.any_eq_true.mpr ⟨m, hm, by simp [hgw, hst]⟩

/-- A store with one live (not completed) match in gameweek 1. -/
def exDB2 : DB :=
  { gameweeks := [], real_matches := [{ gameweek := 1, status := "live" }],
    fantasy_teams := [], rosters := [], players := [], gameweek_scores := [],
    points_ledger := [] }

/-- Witness for C2: finalizing gameweek 1 while its match is still `live`
fails with the named error. -/
theorem finalize_gameweek_incomplete_error_witness :
    finalize_gameweek 1 exDB2 = Except.error (finalizeError 1) :=
  finalize_gameweek_incomplete_error 1 exDB2 { gameweek := 1, status := "live" }
    (by decide) rfl (by decide)

/-- Row-level behaviour of the finalizer's gameweek updates. -/
theorem finalizeGwFun_spec (gw : Int) (a : Gameweek) :
    ((finalizeGwFun gw a).gameweek_number = a.gameweek_number)
    ∧ (a.gameweek_number = gw →
        (finalizeGwFun gw a).status = "finalized" ∧ (finalizeGwFun gw a).is_current = false)
    ∧ (a.gameweek_number = gw + 1 →
        (finalizeGwFun gw a).status = "active" ∧ (finalizeGwFun gw a).is_current = true)
    ∧ (a.gameweek_number = gw + 2 → (finalizeGwFun gw a).is_next = true) := by
  unfold finalizeGwFun
  split_ifs with h1 h2 h3 <;>
    refine ⟨rfl, ?_, ?_, ?_⟩ <;>
    intro hx <;>
    first | exact ⟨rfl, rfl⟩ | rfl | (exfalso; omega)

/-- C8: after a successful `finalize_gameweek` on gameweek `gw`, in the
resulting gameweeks table the row numbered `gw` is `finalized` and not
current, the row numbered `gw + 1` is `active` and current, and the row
numbered `gw + 2` is next. -/
theorem finalize_gameweek_advances (gw : Int) (db db2 : DB)
    (h : finalize_gameweek gw db = Except.ok db2) :
    ∀ g ∈ db2.gameweeks,
      (g.gameweek_number = gw → g.status = "finalized" ∧ g.is_current = false)
      ∧ (g.gameweek_number = gw + 1 → g.status = "active" ∧ g.is_current = true)
      ∧ (g.gameweek_number = gw + 2 → g.is_next = true) := by
  unfold finalize_gameweek at h
  split at h
  · exact Except.noConfusion h
  · simp only [Except.ok.injEq] at h
    subst h
    intro g hg
    have hg2 : g ∈ db.gameweeks.map (finalizeGwFun gw) := hg
    rw [List.mem_map] at hg2
    obtain ⟨a, _, rfl⟩ := hg2
    obtain ⟨hnum, hA, hB, hC⟩ := finalizeGwFun_spec gw a
    refine ⟨fun hx => hA ?_, fun hx => hB ?_, fun hx => hC ?_⟩ <;>
      (rw [← hnum]; exact hx)

/-- Extract the successor state of a finalizer run, with a fallback default
(used only to name concrete successful runs in witnesses). -/
def okOr (d : DB) (x : Except String DB) : DB :=
  match x with
  | Except.ok r => r
  | Except.error _ => d

/-- A store with three gameweeks (1 active, 2 and 3 upcoming) and one
completed match in gameweek 1. -/
def exDB8 : DB :=
  { gameweeks :=
      [{ gameweek_number := 1, deadline_time := some 0, start_time := some 10,
         end_time := some 20, status := "active", is_current := true,
         is_next := false, is_finished := false },
       { gameweek_number := 2, deadline_time := some 30, start_time := some 40,
         end_time := some 50, status := "upcoming", is_current := false,
         is_next := true, is_finished := false },
       { gameweek_number := 3, deadline_time := some 60, start_time := some 70,
         end_time := some 80, status := "upcoming", is_current := false,
         is_next := false, is_finished := false }],
    real_matches := [{ gameweek := 1, status := "completed" }],
    fantasy_teams := [], rosters := [], players := [], gameweek_scores := [],
    points_ledger := [] }

/-- The state after successfully finalizing gameweek 1 of `exDB8`. -/
def exDB8res : DB := okOr exDB8 (finalize_gameweek 1 exDB8)

/-- The row of `exDB8res` for gameweek 2, promoted by the finalizer. -/
def exGw8resB : Gameweek :=
  { gameweek_number := 2, deadline_time := some 30, start_time := some 40,
    end_time := some 50, status := "active", is_current := true,
    is_next := false, is_finished := false }

/-- Witness for C8 on `exDB8`: after finalizing gameweek 1, the row for
gameweek 2 (the target plus one) is active and current. -/
theorem finalize_gameweek_advances_witness :
    exGw8resB.status = "active" ∧ exGw8resB.is_current = true :=
  (finalize_gameweek_advances 1 exDB8 exDB8res rfl exGw8resB (by decide)).2.1
    (by decide)

/-- C10: for any state satisfying the finalization precondition, the row
numbered `gw + 1` is set to `active`/`is_current` unconditionally — the
hypothesis places no constraint on its previous status, so a gameweek that
was already `finalized` is regressed back to `active`: finalized-stickiness
holds only for the time-based resolver, not for explicit finalization. -/
theorem finalize_gameweek_unconditional_promotion (gw : Int) (db db2 : DB)
    (i : Nat) (g : Gameweek)
    (h : finalize_gameweek gw db = Except.ok db2)
    (hg : db.gameweeks[i]? = some g) (hnum : g.gameweek_number = gw + 1) :
    ∃ g2, db2.gameweeks[i]? = some g2 ∧ g2.status = "active" ∧ g2.is_current = true := by
  unfold finalize_gameweek at h
  split at h
  · exact Except.noConfusion h
  · simp only [Except.ok.injEq] at h
    subst h
    refine ⟨finalizeGwFun gw g, ?_, ?_, ?_⟩
    · show (db.gameweeks.map (finalizeGwFun gw))[i]? = some (finalizeGwFun gw g)
      rw [List.getElem?_map, hg]
      rfl
    · exact ((finalizeGwFun_spec gw g).2.2.1 hnum).1
    · exact ((finalizeGwFun_spec gw g).2.2.1 hnum).2

/-- A store whose gameweek 2 is already `finalized`, with gameweek 1 ready to
finalize. -/
def exDB10 : DB :=
  { gameweeks :=
      [{ gameweek_number := 1, deadline_time := some 0, start_time := some 10,
         end_time := some 20, status := "active", is_current := true,
         is_next := false, is_finished := false },
       { gameweek_number := 2, deadline_time := some 30, start_time := some 40,
         end_time := some 50, status := "finalized", is_current := false,
         is_next := false, is_finished := true }],
    real_matches := [{ gameweek := 1, status := "completed" }],
    fantasy_teams := [], rosters := [], players := [], gameweek_scores := [],
    points_ledger := [] }

/-- The state after successfully finalizing gameweek 1 of `exDB10`. -/
def exDB10res : DB := okOr exDB10 (finalize_gameweek 1 exDB10)

/-- Witness for C10: the already-`finalized` gameweek 2 of `exDB10` is
regressed to `active`/`is_current` by finalizing gameweek 1. -/
theorem finalize_gameweek_unconditional_promotion_witness :
    ∃ g2, exDB10res.gameweeks[1]? = some g2 ∧ g2.status = "active" ∧ g2.is_current = true :=
  finalize_gameweek_unconditional_promotion 1 exDB10 exDB10res 1
    { gameweek_number := 2, deadline_time := some 30, start_time := some 40,
      end_time := some 50, status := "finalized", is_current := false,
      is_next := false, is_finished := true }
    rfl rfl (by decide)

theorem assignOverallRanks_getElem? (teams : List FantasyTeam) (i : Nat) :
    (assignOverallRanks teams)[i]? = (teams[i]?).map (fun t =>
      { t with rank := Int.ofNat ((overallRankIds teams).indexOf t.fantasy_team_id + 1) }) := by
  unfold assignOverallRanks
  rw [List.getElem?_map]

/-- On success, the finalizer's whole effect on the store: teams settled and
re-ranked, ledger upserted and league-ranked, gameweeks advanced. -/
theorem finalize_ok_state (gw : Int) (db db1 : DB)
    (h : finalize_gameweek gw db = Except.ok db1) :
    db1 = { db with
      fantasy_teams := assignOverallRanks (db.fantasy_teams.map
        (settleTeam db.rosters db.players db.gameweek_scores gw)),
      points_ledger := rankLeagues gw
        (db.fantasy_teams.map (settleTeam db.rosters db.players db.gameweek_scores gw))
        (settleLedger db.rosters db.players db.gameweek_scores gw db.fantasy_teams
          db.points_ledger),
      gameweeks := db.gameweeks.map (finalizeGwFun gw) } := by
  unfold finalize_gameweek at h
  split at h
  · exact Except.noConfusion h
  · simp only [Except.ok.injEq] at h
    exact h.symm

/-- C9: a successful `finalize_gameweek` on gameweek `gw` gives every team
`total_points = old total + fresh points − old gameweek_points snapshot` and
`gameweek_points = fresh points` (first conjunct, row by row); consequently a
second successful run on the resulting state — rosters, players and scores
are untouched by finalization — leaves every team's `total_points` unchanged:
no double counting (second conjunct). -/
theorem finalize_gameweek_points_settlement (gw : Int) (db db1 db2 : DB)
    (h1 : finalize_gameweek gw db = Except.ok db1)
    (h2 : finalize_gameweek gw db1 = Except.ok db2) :
    (∀ (i : Nat) (t : FantasyTeam), db.fantasy_teams[i]? = some t →
      ∃ t1 : FantasyTeam, db1.fantasy_teams[i]? = some t1 ∧
        t1.total_points = t.total_points
          + calculate_fantasy_team_points db.rosters db.players db.gameweek_scores
              t.fantasy_team_id gw
          - t.gameweek_points ∧
        t1.gameweek_points = calculate_fantasy_team_points db.rosters db.players
          db.gameweek_scores t.fantasy_team_id gw)
    ∧ db2.fantasy_teams.map FantasyTeam.total_points
        = db1.fantasy_teams.map FantasyTeam.total_points := by
  have e1 := finalize_ok_state gw db db1 h1
  have e2 := finalize_ok_state gw db1 db2 h2
  subst e1
  subst e2
  constructor
  · intro i t ht
    have hpos := assignOverallRanks_getElem? (db.fantasy_teams.map
      (settleTeam db.rosters db.players db.gameweek_scores gw)) i
    rw [List.getElem?_map, ht] at hpos
    exact ⟨_, hpos, rfl, rfl⟩
  · show (assignOverallRanks ((assignOverallRanks (db.fantasy_teams.map
        (settleTeam db.rosters db.players db.gameweek_scores gw))).map
        (settleTeam db.rosters db.players db.gameweek_scores gw))).map
          FantasyTeam.total_points
      = (assignOverallRanks (db.fantasy_teams.map
        (settleTeam db.rosters db.players db.gameweek_scores gw))).map
          FantasyTeam.total_points
    set Y := assignOverallRanks (db.fantasy_teams.map
      (settleTeam db.rosters db.players db.gameweek_scores gw)) with hY
    conv_lhs => rw [assignOverallRanks]
    rw [List.map_map, List.map_map]
    apply List.map_congr_left
    intro t1 ht1
    have ht1b : t1 ∈ assignOverallRanks (db.fantasy_teams.map
        (settleTeam db.rosters db.players db.gameweek_scores gw)) := by
      rw [← hY]
      exact ht1
    unfold assignOverallRanks at ht1b
    rw [List.mem_map] at ht1b
    obtain ⟨t2, ht2, rfl⟩ := ht1b
    rw [List.mem_map] at ht2
    obtain ⟨t0, _, rfl⟩ := ht2
    show (t0.total_points
        + calculate_fantasy_team_points db.rosters db.players db.gameweek_scores
            t0.fantasy_team_id gw
        - t0.gameweek_points)
        + calculate_fantasy_team_points db.rosters db.players db.gameweek_scores
            t0.fantasy_team_id gw
        - calculate_fantasy_team_points db.rosters db.players db.gameweek_scores
            t0.fantasy_team_id gw
      = t0.total_points
        + calculate_fantasy_team_points db.rosters db.players db.gameweek_scores
            t0.fantasy_team_id gw
        - t0.gameweek_points
    omega

/-- A store with one fantasy team and no matches (the finalization
precondition holds vacuously). -/
def exDB9 : DB :=
  { gameweeks := [], real_matches := [],
    fantasy_teams :=
      [{ fantasy_team_id := 1, league_id := none, total_points := 7,
         gameweek_points := 3, current_gameweek := 1, transfers_made_this_gw := 2,
         transfers_banked := 0, rank := 0 }],
    rosters := [], players := [], gameweek_scores := [], points_ledger := [] }

/-- The state after finalizing gameweek 1 of `exDB9` once. -/
def exDB9a : DB := okOr exDB9 (finalize_gameweek 1 exDB9)

/-- The state after finalizing gameweek 1 of `exDB9` twice. -/
def exDB9b : DB := okOr exDB9 (finalize_gameweek 1 exDB9a)

/-- Witness for C9: finalizing the same gameweek a second time leaves the
team's cumulative total unchanged. -/
theorem finalize_gameweek_points_settlement_witness :
    exDB9b.fantasy_teams.map FantasyTeam.total_points
      = exDB9a.fantasy_teams.map FantasyTeam.total_points :=
  (finalize_gameweek_points_settlement 1 exDB9 exDB9a exDB9b rfl rfl).2

/-! ### C4: the base total of the points calculator -/

/-- The specification's per-starter contribution, following its wording: the
starter's recorded points when the starter played more than zero minutes;
otherwise the points of the highest-scoring same-position bench player with
nonzero minutes, if one exists; otherwise zero. -/
def specStarterContribution (rosters : List RosterEntry) (players : List Player)
    (scores : List GameweekScore) (teamId gw : Int) (rp : RosterEntry × Player) : Int :=
  if 0 < scoreMinutes scores gw rp.1.player_id then
    scorePoints scores gw rp.1.player_id
  else
    match bestSubPoints rosters players scores teamId gw rp.2.position with
    | some sp => sp
    | none => 0

/-- The specification's base total: the sum of the per-starter contributions
over the starting roster entries (joined to their player rows). -/
def specBaseTotal (rosters : List RosterEntry) (players : List Player)
    (scores : List GameweekScore) (teamId gw : Int) : Int :=
  (((rosterJoin rosters players teamId).filter (fun rp => rp.1.is_starter)).map
    (specStarterContribution rosters players scores teamId gw)).sum

theorem scoreMinutes_nonneg (scores : List GameweekScore)
    (hmin : ∀ s ∈ scores, 0 ≤ s.minutes_played) (gw pid : Int) :
    0 ≤ scoreMinutes scores gw pid := by
  unfold scoreMinutes scoreFor
  cases h : scores.find? (fun s => s.player_id == pid && s.gameweek == gw) with
  | none => exact le_refl 0
  | some s => exact hmin s (List.mem_of_find?_eq_some h)

/-- The first component of the calculator's loop accumulator equals the
running base-contribution sum over the starters scanned so far. -/
theorem calcLoop_fst (rosters : List RosterEntry) (players : List Player)
    (scores : List GameweekScore) (teamId gw : Int)
    (L : List (RosterEntry × Player)) :
    ∀ acc : Int × Int, (∀ s ∈ scores, 0 ≤ s.minutes_played) →
      (L.foldl (loopStep rosters players scores teamId gw) acc).1
        = acc.1 + ((L.filter (fun rp => rp.1.is_starter)).map
            (specStarterContribution rosters players scores teamId gw)).sum := by
  induction L with
  | nil => intro acc _; simp
  | cons a L ih =>
    intro acc hmin
    rw [List.foldl_cons]
    cases hstart : a.1.is_starter with
    | false =>
      have hstep : loopStep rosters players scores teamId gw acc a = acc := by
        unfold loopStep
        rw [if_neg (by simp [hstart])]
      rw [hstep, List.filter_cons_of_neg (by simp [hstart]), ih acc hmin]
    | true =>
      by_cases hm : scoreMinutes scores gw a.1.player_id = 0
      · cases hsub : bestSubPoints rosters players scores teamId gw a.2.position with
        | some sp =>
          have hstep : loopStep rosters players scores teamId gw acc a
              = (acc.1 + sp, if a.1.is_captain then sp else acc.2) := by
            unfold loopStep
            rw [if_pos hstart, if_pos hm, hsub]
          have hcontrib : specStarterContribution rosters players scores teamId gw a = sp := by
            unfold specStarterContribution
            rw [if_neg (by omega), hsub]
          rw [hstep, ih _ hmin, List.filter_cons_of_pos (by simp [hstart]),
            List.map_cons, List.sum_cons, hcontrib]
          show acc.1 + sp + _ = _
          omega
        | none =>
          have hstep : loopStep rosters players scores teamId gw acc a = acc := by
            unfold loopStep
            rw [if_pos hstart, if_pos hm, hsub]
          have hcontrib : specStarterContribution rosters players scores teamId gw a = 0 := by
            unfold specStarterContribution
            rw [if_neg (by omega), hsub]
          rw [hstep, ih _ hmin, List.filter_cons_of_pos (by simp [hstart]),
            List.map_cons, List.sum_cons, hcontrib]
          omega
      · have hpos : 0 < scoreMinutes scores gw a.1.player_id := by
          have := scoreMinutes_nonneg scores hmin gw a.1.player_id
          omega
        have hstep : loopStep rosters players scores teamId gw acc a
            = (acc.1 + scorePoints scores gw a.1.player_id,
               if a.1.is_captain then scorePoints scores gw a.1.player_id else acc.2) := by
          unfold loopStep
          rw [if_pos hstart, if_neg hm]
        have hcontrib : specStarterContribution rosters players scores teamId gw a
            = scorePoints scores gw a.1.player_id := by
          unfold specStarterContribution
          rw [if_pos hpos]
        rw [hstep, ih _ hmin, List.filter_cons_of_pos (by simp [hstart]),
          List.map_cons, List.sum_cons, hcontrib]
        show acc.1 + scorePoints scores gw a.1.player_id + _ = _
        omega

/-- C4 (amended): the base total accumulated by `calculate_fantasy_team_points`
before the captain bonus equals the specification's per-starter sum — the
starter's points when the starter played, otherwise the best same-position
bench substitute's points, otherwise zero (for scores with nonnegative
minutes, as minutes are).  A team with no roster entries returns 0; a team
with zero starters does NOT always return 0 (see the counterexample), so the
claim's final sentence holds only for an empty roster. -/
theorem calculate_base_total (rosters : List RosterEntry) (players : List Player)
    (scores : List GameweekScore) (teamId gw : Int)
    (hmin : ∀ s ∈ scores, 0 ≤ s.minutes_played) :
    ((calcAccum rosters players scores teamId gw).1
      = specBaseTotal rosters players scores teamId gw)
    ∧ (teamRoster rosters teamId = [] →
        calculate_fantasy_team_points rosters players scores teamId gw = 0) := by
  constructor
  · unfold calcAccum specBaseTotal
    rw [calcLoop_fst rosters players scores teamId gw _ (0, 0) hmin]
    show 0 + _ = _
    omega
  · intro hempty
    unfold calculate_fantasy_team_points calcAccum viceCaptainId rosterJoin
    rw [hempty]
    rfl

/-- A bench-only roster whose single player is the vice-captain. -/
def exRoster4 : List RosterEntry :=
  [{ fantasy_team_id := 1, player_id := 10, is_starter := false,
     is_captain := false, is_vice_captain := true }]

/-- The player table for `exRoster4`. -/
def exPlayers4 : List Player := [{ player_id := 10, position := "MID" }]

/-- The score table for `exRoster4`: the vice-captain scored 5 in 90 minutes. -/
def exScores4 : List GameweekScore :=
  [{ player_id := 10, gameweek := 1, total_points := 5, minutes_played := 90 }]

/-- C4 counterexample to the claim's final sentence: this team has zero
starters, yet the calculator returns 5, not 0 — with no captain points the
vice-captain fallback adds the bench vice-captain's recorded score. -/
theorem calculate_zero_starters_not_zero :
    ((teamRoster exRoster4 1).countP (fun r => r.is_starter) = 0)
    ∧ calculate_fantasy_team_points exRoster4 exPlayers4 exScores4 1 1 = 5
    ∧ calculate_fantasy_team_points exRoster4 exPlayers4 exScores4 1 1 ≠ 0 := by
  decide

/-- Roster for the C4 witness: a starter who did not play and a same-position
bench player who did. -/
def exRoster4b : List RosterEntry :=
  [{ fantasy_team_id := 2, player_id := 1, is_starter := true,
     is_captain := false, is_vice_captain := false },
   { fantasy_team_id := 2, player_id := 2, is_starter := false,
     is_captain := false, is_vice_captain := false }]

/-- Player table for the C4 witness. -/
def exPlayers4b : List Player :=
  [{ player_id := 1, position := "DEF" }, { player_id := 2, position := "DEF" }]

/-- Score table for the C4 witness: the starter has 0 minutes, the bench
player scored 4 in 60 minutes. -/
def exScores4b : List GameweekScore :=
  [{ player_id := 1, gameweek := 1, total_points := 0, minutes_played := 0 },
   { player_id := 2, gameweek := 1, total_points := 4, minutes_played := 60 }]

/-- Witness for C4 at a roster with an automatic substitution. -/
theorem calculate_base_total_witness :
    ((calcAccum exRoster4b exPlayers4b exScores4b 2 1).1
      = specBaseTotal exRoster4b exPlayers4b exScores4b 2 1)
    ∧ (teamRoster exRoster4b 2 = [] →
        calculate_fantasy_team_points exRoster4b exPlayers4b exScores4b 2 1 = 0) :=
  calculate_base_total exRoster4b exPlayers4b exScores4b 2 1 (by decide)

/-! ### C3: captain doubling and vice-captain fallback -/

/-- The vice-captain fallback bonus: the vice-captain's recorded score when a
score row exists and is positive, otherwise nothing (also when the team has
no vice-captain). -/
def vcFallbackBonus (rosters : List RosterEntry) (scores : List GameweekScore)
    (teamId gw : Int) : Int :=
  match viceCaptainId rosters teamId with
  | some vc =>
    match scores.find? (fun s => s.player_id == vc && s.gameweek == gw) with
    | some srow => if 0 < srow.total_points then srow.total_points else 0
    | none => 0
  | none => 0

/-- The captain's contribution after substitution, read off the roster: the
per-starter contribution of the captain when the captain is a starter,
otherwise zero. -/
def captainContribution (rosters : List RosterEntry) (players : List Player)
    (scores : List GameweekScore) (teamId gw : Int) : Int :=
  match (rosterJoin rosters players teamId).find?
      (fun rp => rp.1.is_captain && rp.1.is_starter) with
  | some rp => specStarterContribution rosters players scores teamId gw rp
  | none => 0

theorem loopStep_snd_noncap (rosters : List RosterEntry) (players : List Player)
    (scores : List GameweekScore) (teamId gw : Int)
    (acc : Int × Int) (a : RosterEntry × Player) (h : a.1.is_captain = false) :
    (loopStep rosters players scores teamId gw acc a).2 = acc.2 := by
  unfold loopStep
  split
  · split
    · split
      · simp [h]
      · rfl
    · simp [h]
  · rfl

theorem calcLoop_snd_const (rosters : List RosterEntry) (players : List Player)
    (scores : List GameweekScore) (teamId gw : Int)
    (L : List (RosterEntry × Player)) :
    ∀ acc : Int × Int, (∀ rp ∈ L, rp.1.is_captain = false) →
      (L.foldl (loopStep rosters players scores teamId gw) acc).2 = acc.2 := by
  induction L with
  | nil => intro acc _; rfl
  | cons a L ih =>
    intro acc hnc
    rw [List.foldl_cons]
    rw [ih _ (fun rp hrp => hnc rp (List.mem_cons_of_mem a hrp))]
    exact loopStep_snd_noncap rosters players scores teamId gw acc a
      (hnc a (List.mem_cons_self a L))

/-- The second component of the calculator's loop accumulator (the captain
points) equals the captain's per-starter contribution, provided the joined
roster holds at most one captain entry. -/
theorem calcLoop_snd (rosters : List RosterEntry) (players : List Player)
    (scores : List GameweekScore) (teamId gw : Int)
    (L : List (RosterEntry × Player)) :
    ∀ t : Int, (∀ s ∈ scores, 0 ≤ s.minutes_played) →
      L.countP (fun rp => rp.1.is_captain) ≤ 1 →
      (L.foldl (loopStep rosters players scores teamId gw) (t, 0)).2
        = (match L.find? (fun rp => rp.1.is_captain && rp.1.is_starter) with
           | some rp => specStarterContribution rosters players scores teamId gw rp
           | none => 0) := by
  induction L with
  | nil => intro t _ _; rfl
  | cons a L ih =>
    intro t hmin hcap
    rw [List.countP_cons] at hcap
    rw [List.foldl_cons]
    cases hcapa : a.1.is_captain with
    | false =>
      have hsnd := loopStep_snd_noncap rosters players scores teamId gw (t, 0) a hcapa
      have hpair : loopStep rosters players scores teamId gw (t, 0) a
          = ((loopStep rosters players scores teamId gw (t, 0) a).1, 0) := by
        exact Prod.ext rfl hsnd
      rw [hpair, ih _ hmin (by omega),
        List.find?_cons_of_neg _ (by simp [hcapa])]
    | true =>
      have hLzero : L.countP (fun rp => rp.1.is_captain) = 0 := by
        simp only [hcapa, if_true] at hcap
        omega
      have hnc : ∀ rp ∈ L, rp.1.is_captain = false := by
        intro rp hrp
        have := List.countP_eq_zero.mp hLzero rp hrp
        simpa using this
      cases hstart : a.1.is_starter with
      | false =>
        have hstep : loopStep rosters players scores teamId gw (t, 0) a = (t, 0) := by
          unfold loopStep
          rw [if_neg (by simp [hstart])]
        have hfind : (a :: L).find? (fun rp => rp.1.is_captain && rp.1.is_starter)
            = none := by
          rw [List.find?_cons_of_neg _ (by simp [hstart])]
          exact List.find?_eq_none.mpr (fun rp hrp => by simp [hnc rp hrp])
        rw [hstep, hfind, calcLoop_snd_const rosters players scores teamId gw L _ hnc]
      | true =>
        rw [List.find?_cons_of_pos _ (by simp [hcapa, hstart])]
        by_cases hm : scoreMinutes scores gw a.1.player_id = 0
        · cases hsub : bestSubPoints rosters players scores teamId gw a.2.position with
          | some sp =>
            have hstep : loopStep rosters players scores teamId gw (t, 0) a
                = (t + sp, sp) := by
              simp [loopStep, hstart, hm, hsub, hcapa]
            have hcontrib : specStarterContribution rosters players scores teamId gw a
                = sp := by
              unfold specStarterContribution
              rw [if_neg (by omega), hsub]
            rw [hstep, calcLoop_snd_const rosters players scores teamId gw L _ hnc]
            exact hcontrib.symm
          | none =>
            have hstep : loopStep rosters players scores teamId gw (t, 0) a = (t, 0) := by
              simp [loopStep, hstart, hm, hsub]
            have hcontrib : specStarterContribution rosters players scores teamId gw a
                = 0 := by
              unfold specStarterContribution
              rw [if_neg (by omega), hsub]
            rw [hstep, calcLoop_snd_const rosters players scores teamId gw L _ hnc]
            exact hcontrib.symm
        · have hpos2 : 0 < scoreMinutes scores gw a.1.player_id := by
            have := scoreMinutes_nonneg scores hmin gw a.1.player_id
            omega
          have hstep : loopStep rosters players scores teamId gw (t, 0) a
              = (t + scorePoints scores gw a.1.player_id,
                 scorePoints scores gw a.1.player_id) := by
            simp [loopStep, hstart, hm, hcapa]
          have hcontrib : specStarterContribution rosters players scores teamId gw a
              = scorePoints scores gw a.1.player_id := by
            unfold specStarterContribution
            rw [if_pos hpos2]
          rw [hstep, calcLoop_snd_const rosters players scores teamId gw L _ hnc]
          exact hcontrib.symm

/-- The spec's worked example roster (team 30): starters 1 (captain), 2
(vice-captain) and 3, bench player 4 in player 3's position. -/
def exRoster3 : List RosterEntry :=
  [{ fantasy_team_id := 30, player_id := 1, is_starter := true,
     is_captain := true, is_vice_captain := false },
   { fantasy_team_id := 30, player_id := 2, is_starter := true,
     is_captain := false, is_vice_captain := true },
   { fantasy_team_id := 30, player_id := 3, is_starter := true,
     is_captain := false, is_vice_captain := false },
   { fantasy_team_id := 30, player_id := 4, is_starter := false,
     is_captain := false, is_vice_captain := false }]

/-- Player table of the worked example. -/
def exPlayers3 : List Player :=
  [{ player_id := 1, position := "FWD" }, { player_id := 2, position := "MID" },
   { player_id := 3, position := "DEF" }, { player_id := 4, position := "DEF" }]

/-- Score table of the worked example: the captain scored 5, the second
starter 3, the third starter sat out (0 minutes) and its bench replacement
scored 4. -/
def exScores3 : List GameweekScore :=
  [{ player_id := 1, gameweek := 1, total_points := 5, minutes_played := 90 },
   { player_id := 2, gameweek := 1, total_points := 3, minutes_played := 90 },
   { player_id := 3, gameweek := 1, total_points := 0, minutes_played := 0 },
   { player_id := 4, gameweek := 1, total_points := 4, minutes_played := 60 }]

/-- C3 (amended): the calculator's captain accumulator is exactly the
captain's post-substitution contribution (for a roster with at most one
captain entry and nonnegative minutes); a positive captain contribution is
added once more (doubling); the vice-captain fallback triggers exactly when
the captain contribution is NOT positive — zero, negative, or captain
substituted out with no replacement — not exactly when it is zero; and the
spec's worked example evaluates to 17. -/
theorem calculate_captain_bonus (rosters : List RosterEntry) (players : List Player)
    (scores : List GameweekScore) (teamId gw : Int)
    (hmin : ∀ s ∈ scores, 0 ≤ s.minutes_played)
    (hcap : (rosterJoin rosters players teamId).countP
      (fun rp => rp.1.is_captain) ≤ 1) :
    ((calcAccum rosters players scores teamId gw).2
        = captainContribution rosters players scores teamId gw)
    ∧ (0 < (calcAccum rosters players scores teamId gw).2 →
        calculate_fantasy_team_points rosters players scores teamId gw
          = (calcAccum rosters players scores teamId gw).1
            + (calcAccum rosters players scores teamId gw).2)
    ∧ ((calcAccum rosters players scores teamId gw).2 ≤ 0 →
        calculate_fantasy_team_points rosters players scores teamId gw
          = (calcAccum rosters players scores teamId gw).1
            + vcFallbackBonus rosters scores teamId gw)
    ∧ calculate_fantasy_team_points exRoster3 exPlayers3 exScores3 30 1 = 17 := by
  refine ⟨?_, ?_, ?_, by decide⟩
  · unfold calcAccum captainContribution
    exact calcLoop_snd rosters players scores teamId gw
      (rosterJoin rosters players teamId) 0 hmin hcap
  · intro h
    simp only [calculate_fantasy_team_points]
    rw [if_pos h]
  · intro h
    simp only [calculate_fantasy_team_points]
    rw [if_neg (by omega)]
    unfold vcFallbackBonus
    cases hvc : viceCaptainId rosters teamId with
    | none =>
      simp only [hvc]
      omega
    | some vc =>
      simp only [hvc]
      cases hfind : scores.find? (fun s => s.player_id == vc && s.gameweek == gw) with
      | none =>
        simp only [hfind]
        omega
      | some srow =>
        simp only [hfind]
        by_cases hp : 0 < srow.total_points
        · rw [if_pos hp, if_pos hp]
        · rw [if_neg hp, if_neg hp]
          omega

/-- Witness for C3: on the spec's worked example the calculator returns 17
(base 5 + 3 + 4, captain contribution 5 doubled). -/
theorem calculate_captain_bonus_witness :
    calculate_fantasy_team_points exRoster3 exPlayers3 exScores3 30 1 = 17 :=
  (calculate_captain_bonus exRoster3 exPlayers3 exScores3 30 1
    (by decide) (by decide)).2.2.2

/-- Roster refuting the exactly-zero fallback rule (team 40): starter 1 is
captain, starter 2 is vice-captain. -/
def exRoster3n : List RosterEntry :=
  [{ fantasy_team_id := 40, player_id := 1, is_starter := true,
     is_captain := true, is_vice_captain := false },
   { fantasy_team_id := 40, player_id := 2, is_starter := true,
     is_captain := false, is_vice_captain := true }]

/-- Player table for `exRoster3n`. -/
def exPlayers3n : List Player :=
  [{ player_id := 1, position := "FWD" }, { player_id := 2, position := "MID" }]

/-- Score table for `exRoster3n`: the captain scored −1 in 90 minutes, the
vice-captain 3 in 90 minutes. -/
def exScores3n : List GameweekScore :=
  [{ player_id := 1, gameweek := 1, total_points := -1, minutes_played := 90 },
   { player_id := 2, gameweek := 1, total_points := 3, minutes_played := 90 }]

/-- C3 counterexample: the captain's contribution is −1, which is nonzero, so
by the claim the vice-captain fallback must not trigger and the result should
equal the base total 2; the code's fallback fires whenever captain points are
not positive and returns 2 + 3 = 5. -/
theorem captain_negative_triggers_fallback :
    (calcAccum exRoster3n exPlayers3n exScores3n 40 1).2 = -1
    ∧ (calcAccum exRoster3n exPlayers3n exScores3n 40 1).1 = 2
    ∧ calculate_fantasy_team_points exRoster3n exPlayers3n exScores3n 40 1 = 5
    ∧ calculate_fantasy_team_points exRoster3n exPlayers3n exScores3n 40 1
        ≠ (calcAccum exRoster3n exPlayers3n exScores3n 40 1).1 := by
  decide
